import Mathlib

/-!
Shallow embedding of the codezest-auth identity and session service.

The definitions below are translated from the TypeScript sources of the
repository: `src/application/services/auth.service.ts`,
`src/application/services/user.service.ts` (the cache-aside variant),
`src/application/services/email.service.ts`,
`src/application/services/oauth.service.ts` (the state-binding variant),
`src/common/utils/token.util.ts`, and
`src/infrastructure/jobs/sessionCleanup.job.ts`.

Modelling conventions:
* Time is in milliseconds (the value of Date.now()) as a natural number.
* The JWT library is modelled abstractly: a signed token records its payload,
  the signing secret, the issuer and the audience; verification succeeds
  exactly when secret, issuer and audience match.  Token lifetimes are not
  modelled (no claim under analysis depends on JWT expiry; session expiry is
  checked against the Session row, which is modelled).
* bcrypt is modelled as an injective tagging function; compare(p, h) holds
  exactly when h = hash(p).
* The Redis cache is modelled as an association list from structured keys
  (one constructor per key template) to structured values (the parsed form
  of the JSON the service writes); JSON serialization is abstracted away.
* Async/await control flow becomes explicit state passing; a thrown error
  becomes an `Except.error` result, and state mutations performed before the
  throw are reflected in the returned state.
* Calls on the durable user repository performed by `login` are recorded in
  an operation trace, so that "does not touch the database" properties can
  be stated.
-/

deriving instance DecidableEq for Except

namespace CodezestAuth

/-- Milliseconds since epoch, the unit of Date.now(). -/
abbrev Millis := Nat

/-- JWT claims payload, from the TokenPayload interface in token.util.ts.
familyId and sessionId are optional there. -/
structure TokenPayload where
  userId : String
  email : String
  role : String
  familyId : Option String := none
  sessionId : Option String := none
  deriving Repr, DecidableEq

/-- Abstract model of a signed JWT string: the signing inputs it was produced
from.  Two tokens are equal exactly when payload, secret, issuer and audience
coincide, matching equality of the encoded strings up to the abstracted
timestamps. -/
structure SignedToken where
  payload : TokenPayload
  secret : String
  issuer : String
  audience : String
  deriving Repr, DecidableEq

/-- Model of jwt.sign from the jsonwebtoken library as used in token.util.ts. -/
def jwtSign (payload : TokenPayload) (secret iss aud : String) : SignedToken :=
  { payload := payload, secret := secret, issuer := iss, audience := aud }

/-- Model of jwt.verify: succeeds exactly when the secret, issuer and audience
match the ones the token was signed with. -/
def jwtVerify (tok : SignedToken) (secret iss aud : String) : Except String TokenPayload :=
  if tok.secret = secret ∧ tok.issuer = iss ∧ tok.audience = aud then
    .ok tok.payload
  else
    .error "invalid token"

/-- JWT portion of the configuration (config.jwt in src/config). -/
structure JwtConfig where
  secret : String
  refreshSecret : String
  deriving Repr, DecidableEq

namespace TokenUtil

/-- TokenUtil.generateAccessToken: sign with config.jwt.secret,
issuer codezest-auth, audience codezest-api. -/
def generateAccessToken (cfg : JwtConfig) (payload : TokenPayload) : SignedToken :=
  jwtSign payload cfg.secret "codezest-auth" "codezest-api"

/-- TokenUtil.generateRefreshToken: sign with config.jwt.refreshSecret. -/
def generateRefreshToken (cfg : JwtConfig) (payload : TokenPayload) : SignedToken :=
  jwtSign payload cfg.refreshSecret "codezest-auth" "codezest-api"

/-- TokenUtil.verifyAccessToken. -/
def verifyAccessToken (cfg : JwtConfig) (tok : SignedToken) : Except String TokenPayload :=
  jwtVerify tok cfg.secret "codezest-auth" "codezest-api"

/-- TokenUtil.verifyRefreshToken. -/
def verifyRefreshToken (cfg : JwtConfig) (tok : SignedToken) : Except String TokenPayload :=
  jwtVerify tok cfg.refreshSecret "codezest-auth" "codezest-api"

end TokenUtil

/-- Model of bcrypt.hash with the fixed cost factor 10 used by the service.
The salt is abstracted away; the function is injective on passwords. -/
def bcryptHash (password : String) : String :=
  "bcrypt10$" ++ password

/-- Model of bcrypt.compare: holds exactly when the hash was produced from the
password. -/
def bcryptCompare (password hash : String) : Bool :=
  bcryptHash password == hash

/-- ASCII lower-casing of a character (model of toLowerCase on the ASCII
provider names the service handles). -/
def asciiLowerChar (c : Char) : Char :=
  if c.isUpper then Char.ofNat (c.toNat + 32) else c

/-- ASCII lower-casing of a string. -/
def asciiLower (s : String) : String := String.mk (s.data.map asciiLowerChar)

/-- ASCII upper-casing of a character. -/
def asciiUpperChar (c : Char) : Char :=
  if c.isLower then Char.ofNat (c.toNat - 32) else c

/-- ASCII upper-casing of a string (model of toUpperCase on provider names). -/
def asciiUpper (s : String) : String := String.mk (s.data.map asciiUpperChar)

/-- Character-level split on a single space. -/
def splitChars : List Char → List (List Char)
  | [] => [[]]
  | c :: cs =>
    let rest := splitChars cs
    if c = ' ' then [] :: rest
    else match rest with
      | [] => [[c]]
      | w :: ws => (c :: w) :: ws

/-- Model of the JavaScript split on a single space. -/
def splitOnSpace (s : String) : List String := (splitChars s.data).map String.mk

/-- Model of the JavaScript join with a single space. -/
def joinSpace : List String → String
  | [] => ""
  | [s] => s
  | s :: rest => s ++ " " ++ joinSpace rest

/-! ## Ephemeral store (Redis via codezest-cache) -/

/-- Structured cache keys, one constructor per key template used by the
service (the string after the constructor comment is the template). -/
inductive CacheKey
  /-- user:id -/
  | userCache (userId : String)
  /-- login_attempts:email -/
  | loginAttempts (email : String)
  /-- token_family:familyId -/
  | tokenFamily (familyId : String)
  /-- session_meta:sessionId -/
  | sessionMeta (sessionId : String)
  /-- csrf:token -/
  | csrfKey (token : String)
  /-- oauth:state:nonce -/
  | oauthState (nonce : String)
  deriving Repr, DecidableEq

/-- Parsed value stored at login_attempts keys. -/
structure LockoutState where
  attempts : Nat
  lockedUntil : Option Millis := none
  deriving Repr, DecidableEq

/-- Parsed value stored at token_family keys. -/
structure FamilyState where
  currentToken : SignedToken
  userId : String
  deriving Repr, DecidableEq

/-- Parsed value stored at oauth:state keys. -/
structure OAuthStateData where
  provider : String
  timestamp : Millis
  deriving Repr, DecidableEq

/-- Parsed value stored at session_meta keys. -/
structure SessionMetaData where
  ip : Option String
  userAgent : Option String
  lastUsedAt : Millis
  lastLoginAt : Millis
  loginMethod : String
  deriving Repr, DecidableEq

/-- Row of the User table (fields used by the services under analysis, from
the domain User entity; passwordHash is the nullable password column). -/
structure UserRow where
  id : String
  email : String
  passwordHash : Option String
  firstName : String
  lastName : String
  userName : Option String := none
  name : String := ""
  role : String := "USER"
  emailVerified : Bool := false
  deriving Repr, DecidableEq

/-! The UserService variant under analysis still writes the legacy name
column on profile updates; the row model carries it alongside the
firstName/lastName fields used by the credential and OAuth engines. -/

/-- Values the service stores in the cache (parsed form of the JSON it
writes). -/
inductive CacheValue
  | lockout (s : LockoutState)
  | family (s : FamilyState)
  | oauthSt (s : OAuthStateData)
  | meta (s : SessionMetaData)
  | userVal (u : UserRow)
  | csrfVal (createdAt : Millis)
  deriving Repr, DecidableEq

/-- The ephemeral store: key, value and the TTL (in seconds) passed on the
write.  TTL expiry itself is not modelled; the services re-check wall-clock
conditions explicitly. -/
structure CacheEntry where
  key : CacheKey
  value : CacheValue
  ttl : Nat
  deriving Repr, DecidableEq

abbrev Cache := List CacheEntry

/-- cache.get: the value at a key, if present. -/
def cacheGet (c : Cache) (k : CacheKey) : Option CacheValue :=
  (c.find? (fun e => e.key == k)).map (·.value)

/-- cache.set with TTL: replaces any previous entry at the key. -/
def cacheSet (c : Cache) (k : CacheKey) (v : CacheValue) (ttl : Nat) : Cache :=
  ⟨k, v, ttl⟩ :: c.filter (fun e => e.key != k)

/-- cache.del. -/
def cacheDel (c : Cache) (k : CacheKey) : Cache :=
  c.filter (fun e => e.key != k)

/-- Typed read of a login_attempts record (cache.get of LockoutState). -/
def getLockout (c : Cache) (email : String) : Option LockoutState :=
  match cacheGet c (.loginAttempts email) with
  | some (.lockout s) => some s
  | _ => none

/-- Typed read of a token_family head (cache.get of FamilyState). -/
def getFamily (c : Cache) (familyId : String) : Option FamilyState :=
  match cacheGet c (.tokenFamily familyId) with
  | some (.family s) => some s
  | _ => none

/-- Typed read of an oauth:state record (cache.get of the state data). -/
def getOAuthState (c : Cache) (nonce : String) : Option OAuthStateData :=
  match cacheGet c (.oauthState nonce) with
  | some (.oauthSt s) => some s
  | _ => none

/-- Typed read of a user read-cache entry (cache.get of a User). -/
def getCachedUser (c : Cache) (userId : String) : Option UserRow :=
  match cacheGet c (.userCache userId) with
  | some (.userVal u) => some u
  | _ => none

/-! ## Durable store (PostgreSQL via Prisma) -/

/-- Row of the Session table.  The token column holds the exact refresh-token
string issued (here its abstract form). -/
structure SessionRow where
  id : String
  userId : String
  token : SignedToken
  expiresAt : Millis
  deriving Repr, DecidableEq

/-- Row of the PasswordReset table. -/
structure PasswordResetRow where
  id : String
  userId : String
  token : String
  expiresAt : Millis
  used : Bool := false
  usedAt : Option Millis := none
  deriving Repr, DecidableEq

/-- Row of the EmailVerification table. -/
structure EmailVerificationRow where
  id : String
  userId : String
  token : String
  verified : Bool := false
  verifiedAt : Option Millis := none
  createdAt : Millis
  deriving Repr, DecidableEq

/-- Row of the OAuthAccount table (provider stored uppercased). -/
structure OAuthAccountRow where
  id : String
  userId : String
  provider : String
  providerId : String
  deriving Repr, DecidableEq

/-- Row of the UserProfile table (only the fields the claims touch). -/
structure UserProfileRow where
  userId : String
  bio : Option String := none
  deriving Repr, DecidableEq

/-- The durable store. -/
structure DB where
  users : List UserRow
  sessions : List SessionRow
  passwordResets : List PasswordResetRow
  emailVerifications : List EmailVerificationRow
  oauthAccounts : List OAuthAccountRow
  profiles : List UserProfileRow
  deriving Repr, DecidableEq

/-- userRepository.findByEmail. -/
def dbFindUserByEmail (db : DB) (email : String) : Option UserRow :=
  db.users.find? (fun u => u.email == email)

/-- userRepository.findById. -/
def dbFindUserById (db : DB) (id : String) : Option UserRow :=
  db.users.find? (fun u => u.id == id)

/-- userRepository.update with a password patch (prisma update of the
password column). -/
def dbUpdateUserPassword (db : DB) (id : String) (hash : String) : DB :=
  { db with users := db.users.map (fun u =>
      if u.id == id then { u with passwordHash := some hash } else u) }

/-- userRepository.update with an emailVerified patch. -/
def dbUpdateUserEmailVerified (db : DB) (id : String) (v : Bool) : DB :=
  { db with users := db.users.map (fun u =>
      if u.id == id then { u with emailVerified := v } else u) }

/-- userRepository.create (prisma insert; the id is the generated uuid). -/
def dbCreateUser (db : DB) (row : UserRow) : DB :=
  { db with users := db.users ++ [row] }

/-- userRepository.delete. -/
def dbDeleteUser (db : DB) (id : String) : DB :=
  { db with users := db.users.filter (fun u => u.id != id) }

/-- sessionRepository.findByToken (token is a unique column). -/
def dbFindSessionByToken (db : DB) (tok : SignedToken) : Option SessionRow :=
  db.sessions.find? (fun s => s.token == tok)

/-- sessionRepository.create. -/
def dbCreateSession (db : DB) (row : SessionRow) : DB :=
  { db with sessions := db.sessions ++ [row] }

/-- sessionRepository.delete (by session id). -/
def dbDeleteSession (db : DB) (id : String) : DB :=
  { db with sessions := db.sessions.filter (fun s => s.id != id) }

/-- sessionRepository.deleteByUserId. -/
def dbDeleteSessionsByUserId (db : DB) (userId : String) : DB :=
  { db with sessions := db.sessions.filter (fun s => s.userId != userId) }

/-- sessionRepository.deleteExpired: deleteMany where expiresAt < now. -/
def dbDeleteExpiredSessions (db : DB) (now : Millis) : DB :=
  { db with sessions := db.sessions.filter (fun s => !(decide (s.expiresAt < now))) }

/-- passwordResetRepository.findByToken. -/
def dbFindResetByToken (db : DB) (token : String) : Option PasswordResetRow :=
  db.passwordResets.find? (fun r => r.token == token)

/-- passwordResetRepository.create. -/
def dbCreateReset (db : DB) (row : PasswordResetRow) : DB :=
  { db with passwordResets := db.passwordResets ++ [row] }

/-- passwordResetRepository.markAsUsed. -/
def dbMarkResetUsed (db : DB) (id : String) (now : Millis) : DB :=
  { db with passwordResets := db.passwordResets.map (fun r =>
      if r.id == id then { r with used := true, usedAt := some now } else r) }

/-- emailVerificationRepository.create. -/
def dbCreateEmailVerification (db : DB) (row : EmailVerificationRow) : DB :=
  { db with emailVerifications := db.emailVerifications ++ [row] }

/-- oauthRepository.findByUserId. -/
def dbFindOAuthByUserId (db : DB) (userId : String) : List OAuthAccountRow :=
  db.oauthAccounts.filter (fun a => a.userId == userId)

/-- oauthRepository.create. -/
def dbCreateOAuthAccount (db : DB) (row : OAuthAccountRow) : DB :=
  { db with oauthAccounts := db.oauthAccounts ++ [row] }

/-- userRepository.update with a name patch (the legacy name column written
by the UserService profile update). -/
def dbUpdateUserName (db : DB) (id : String) (n : String) : DB :=
  { db with users := db.users.map (fun u =>
      if u.id == id then { u with name := n } else u) }

/-- userProfileRepository.findByUserId. -/
def dbFindProfileByUserId (db : DB) (userId : String) : Option UserProfileRow :=
  db.profiles.find? (fun p => p.userId == userId)

/-- userProfileRepository.delete (by user id). -/
def dbDeleteProfile (db : DB) (userId : String) : DB :=
  { db with profiles := db.profiles.filter (fun p => p.userId != userId) }

/-! ## Errors and results -/

/-- Typed errors thrown by the engines (domain/errors); generic library
Error throws are modelled by the internal constructor. -/
inductive AuthError
  | unauthorized (msg : String)
  | notFound (msg : String)
  | conflict (msg : String)
  | badRequest (msg : String)
  | internal (msg : String)
  deriving Repr, DecidableEq

/-- The token pair returned to clients (AuthTokens in auth.service.ts). -/
structure AuthTokens where
  accessToken : SignedToken
  refreshToken : SignedToken
  familyId : Option String := none
  deriving Repr, DecidableEq

/-- Durable-store operations recorded while running login, used to state
that the locked path never consults the durable store. -/
inductive DbOp
  | userFindByEmail (email : String)
  | sessionCreate (row : SessionRow)
  deriving Repr, DecidableEq

namespace AuthService

/-- AuthService.generateTokens: both tokens carry userId, email, role,
familyId and sessionId; the familyId is the existing one when rotating,
otherwise the fresh random token freshFamilyId. -/
def generateTokens (cfg : JwtConfig) (user : UserRow) (sessionId : String)
    (existingFamilyId : Option String) (freshFamilyId : String) : AuthTokens :=
  let familyId := existingFamilyId.getD freshFamilyId
  let payload : TokenPayload :=
    { userId := user.id
      email := user.email
      role := user.role
      familyId := some familyId
      sessionId := some sessionId }
  { accessToken := TokenUtil.generateAccessToken cfg payload
    refreshToken := TokenUtil.generateRefreshToken cfg payload
    familyId := some familyId }

/-- AuthService.createSession: insert the Session row (expiry 7 days out) and
best-effort write of the session_meta record when ip or userAgent is given. -/
def createSession (cache : Cache) (db : DB) (userId : String)
    (refreshToken : SignedToken) (ip userAgent : Option String)
    (sessionId : String) (loginMethod : String) (now : Millis) :
    Cache × DB :=
  let expiresAt := now + 7 * 24 * 60 * 60 * 1000
  let db := dbCreateSession db
    { id := sessionId, userId := userId, token := refreshToken, expiresAt := expiresAt }
  let cache :=
    if ip.isSome || userAgent.isSome then
      cacheSet cache (.sessionMeta sessionId)
        (.meta { ip := ip, userAgent := userAgent, lastUsedAt := now,
                 lastLoginAt := now, loginMethod := loginMethod })
        (7 * 24 * 60 * 60)
    else cache
  (cache, db)

/-- Message thrown when a login hits an active lockout; remainingMinutes is
Math.ceil of the remaining time in minutes. -/
def lockedRemainingMessage (lockedUntil now : Millis) : String :=
  "Account is locked due to too many failed attempts. Please try again in "
    ++ toString ((lockedUntil - now + 59999) / 60000) ++ " minutes."

/-- AuthService.handleFailedLogin: bump the counter; on reaching 5 attempts
write the lockout record (TTL 30 minutes) and throw; otherwise rewrite the
counter with a 1 hour TTL.  Returns the new cache and the thrown error, if
any. -/
def handleFailedLogin (cache : Cache) (email : String)
    (lockoutState : Option LockoutState) (now : Millis) :
    Cache × Option AuthError :=
  let attempts := (match lockoutState with
    | some s => s.attempts
    | none => 0) + 1
  if 5 ≤ attempts then
    let cache := cacheSet cache (.loginAttempts email)
      (.lockout { attempts := attempts, lockedUntil := some (now + 30 * 60 * 1000) })
      (30 * 60)
    (cache, some (.unauthorized
      "Account is locked due to too many failed attempts. Please try again in 30 minutes."))
  else
    let cache := cacheSet cache (.loginAttempts email)
      (.lockout { attempts := attempts, lockedUntil := none })
      (60 * 60)
    (cache, none)

/-- Result of AuthService.login: the outcome, the final stores, and the
trace of durable-store operations performed. -/
structure LoginResult where
  result : Except AuthError (UserRow × AuthTokens)
  cache : Cache
  db : DB
  dbTrace : List DbOp
  deriving Repr, DecidableEq

/-- Continuation of login after the lockout gate: find the user, verify the
password, clear the lockout record, mint tokens, write the family head and
create the session. -/
def loginAfterLockoutCheck (cfg : JwtConfig) (cache : Cache) (db : DB)
    (email password : String) (ip userAgent : Option String) (now : Millis)
    (freshSessionId freshFamilyId : String)
    (lockoutState : Option LockoutState) : LoginResult :=
  let trace0 : List DbOp := [.userFindByEmail email]
  match dbFindUserByEmail db email with
  | none =>
    let hf := handleFailedLogin cache email lockoutState now
    { result := .error (hf.2.getD (.unauthorized "Invalid email or password"))
      cache := hf.1, db := db, dbTrace := trace0 }
  | some user =>
    match user.passwordHash with
    | none =>
      let hf := handleFailedLogin cache email lockoutState now
      { result := .error (hf.2.getD (.unauthorized "Invalid email or password"))
        cache := hf.1, db := db, dbTrace := trace0 }
    | some passwordHash =>
      if !(bcryptCompare password passwordHash) then
        let hf := handleFailedLogin cache email lockoutState now
        { result := .error (hf.2.getD (.unauthorized "Invalid email or password"))
          cache := hf.1, db := db, dbTrace := trace0 }
      else
        let cache := if lockoutState.isSome then cacheDel cache (.loginAttempts email) else cache
        let tokens := generateTokens cfg user freshSessionId none freshFamilyId
        let cache := match tokens.familyId with
          | some fid => cacheSet cache (.tokenFamily fid)
              (.family { currentToken := tokens.refreshToken, userId := user.id })
              (7 * 24 * 60 * 60)
          | none => cache
        let cd := createSession cache db user.id tokens.refreshToken
          ip userAgent freshSessionId "password" now
        { result := .ok (user, tokens)
          cache := cd.1, db := cd.2
          dbTrace := trace0 ++ [.sessionCreate
            { id := freshSessionId, userId := user.id, token := tokens.refreshToken,
              expiresAt := now + 7 * 24 * 60 * 60 * 1000 }] }

/-- AuthService.login.  First consults the lockout record; when
lockedUntil > now it throws Unauthorized with the remaining minutes without
any durable-store access. -/
def login (cfg : JwtConfig) (cache : Cache) (db : DB)
    (email password : String) (ip userAgent : Option String) (now : Millis)
    (freshSessionId freshFamilyId : String) : LoginResult :=
  match getLockout cache email with
  | some s =>
    match s.lockedUntil with
    | some lockedUntil =>
      if now < lockedUntil then
        { result := .error (.unauthorized (lockedRemainingMessage lockedUntil now))
          cache := cache, db := db, dbTrace := [] }
      else
        loginAfterLockoutCheck cfg cache db email password ip userAgent now
          freshSessionId freshFamilyId (some s)
    | none =>
      loginAfterLockoutCheck cfg cache db email password ip userAgent now
        freshSessionId freshFamilyId (some s)
  | none =>
    loginAfterLockoutCheck cfg cache db email password ip userAgent now
      freshSessionId freshFamilyId none

/-- Result of AuthService.refreshToken. -/
structure RefreshResult where
  result : Except AuthError AuthTokens
  cache : Cache
  db : DB
  deriving Repr, DecidableEq

/-- Continuation of refreshToken after the reuse gate: look the session up by
token, check its expiry, load the user, rotate. -/
def refreshAfterReuseCheck (cfg : JwtConfig) (cache : Cache) (db : DB)
    (refreshTok : SignedToken) (payload : TokenPayload)
    (ip userAgent : Option String) (now : Millis)
    (freshSessionId freshFamilyId : String) : RefreshResult :=
  match dbFindSessionByToken db refreshTok with
  | none =>
    { result := .error (.unauthorized "Invalid refresh token"), cache := cache, db := db }
  | some session =>
    if session.expiresAt < now then
      { result := .error (.unauthorized "Refresh token expired")
        cache := cache, db := dbDeleteSession db session.id }
    else
      match dbFindUserById db payload.userId with
      | none =>
        { result := .error (.unauthorized "User not found"), cache := cache, db := db }
      | some user =>
        let tokens := generateTokens cfg user freshSessionId payload.familyId freshFamilyId
        let cache := match payload.familyId with
          | some fid => cacheSet cache (.tokenFamily fid)
              (.family { currentToken := tokens.refreshToken, userId := user.id })
              (7 * 24 * 60 * 60)
          | none => cache
        let db := dbDeleteSession db session.id
        let cd := createSession cache db user.id tokens.refreshToken
          ip userAgent freshSessionId "password" now
        { result := .ok tokens, cache := cd.1, db := cd.2 }

/-- AuthService.refreshToken: verify the token; when the claims carry a
familyId and the family head exists but points at a different token, delete
the head and throw (reuse); otherwise rotate. -/
def refreshToken (cfg : JwtConfig) (cache : Cache) (db : DB)
    (refreshTok : SignedToken) (ip userAgent : Option String) (now : Millis)
    (freshSessionId freshFamilyId : String) : RefreshResult :=
  match TokenUtil.verifyRefreshToken cfg refreshTok with
  | .error _ =>
    { result := .error (.unauthorized "Invalid refresh token"), cache := cache, db := db }
  | .ok payload =>
    match payload.familyId with
    | some fid =>
      match getFamily cache fid with
      | some familyState =>
        if familyState.currentToken != refreshTok then
          { result := .error (.unauthorized "Invalid refresh token (reuse detected)")
            cache := cacheDel cache (.tokenFamily fid), db := db }
        else
          refreshAfterReuseCheck cfg cache db refreshTok payload ip userAgent now
            freshSessionId freshFamilyId
      | none =>
        refreshAfterReuseCheck cfg cache db refreshTok payload ip userAgent now
          freshSessionId freshFamilyId
    | none =>
      refreshAfterReuseCheck cfg cache db refreshTok payload ip userAgent now
        freshSessionId freshFamilyId

/-- Result of the void-returning credential operations. -/
structure OpResult where
  result : Except AuthError Unit
  cache : Cache
  db : DB
  deriving Repr, DecidableEq

/-- AuthService.resetPassword: validate the reset row, hash and store the new
password, mark the row used, then delete every session of the user. -/
def resetPassword (cache : Cache) (db : DB) (token newPassword : String)
    (now : Millis) : OpResult :=
  match dbFindResetByToken db token with
  | none =>
    { result := .error (.badRequest "Invalid reset token"), cache := cache, db := db }
  | some reset =>
    if reset.usedAt.isSome then
      { result := .error (.badRequest "Reset token already used"), cache := cache, db := db }
    else if reset.expiresAt < now then
      { result := .error (.badRequest "Reset token expired"), cache := cache, db := db }
    else
      let db := dbUpdateUserPassword db reset.userId (bcryptHash newPassword)
      let db := dbMarkResetUsed db reset.id now
      let db := dbDeleteSessionsByUserId db reset.userId
      { result := .ok (), cache := cache, db := db }

/-- AuthService.changePassword: re-verify the current password, store the new
hash, then delete every session of the user.  The cache is not touched. -/
def changePassword (cache : Cache) (db : DB) (userId : String)
    (currentPassword newPassword : String) : OpResult :=
  match dbFindUserById db userId with
  | none =>
    { result := .error (.notFound "User not found"), cache := cache, db := db }
  | some user =>
    match user.passwordHash with
    | none =>
      { result := .error (.badRequest "User does not have a password set")
        cache := cache, db := db }
    | some passwordHash =>
      if !(bcryptCompare currentPassword passwordHash) then
        { result := .error (.unauthorized "Current password is incorrect")
          cache := cache, db := db }
      else
        let db := dbUpdateUserPassword db userId (bcryptHash newPassword)
        let db := dbDeleteSessionsByUserId db userId
        { result := .ok (), cache := cache, db := db }

end AuthService

/-! ## Email service (email.service.ts) -/

/-- Environment describing whether the SMTP transport succeeds. -/
structure MailerEnv where
  resetMailOk : Bool
  verificationMailOk : Bool
  deriving Repr, DecidableEq

namespace EmailService

/-- EmailService.sendVerificationEmail: a transport failure is caught, logged
and swallowed (the catch block does not rethrow). -/
def sendVerificationEmail (_env : MailerEnv) : Except String Unit :=
  .ok ()

/-- EmailService.sendPasswordResetEmail: a transport failure is caught,
logged, and a fresh generic Error is rethrown. -/
def sendPasswordResetEmail (env : MailerEnv) : Except String Unit :=
  if env.resetMailOk then .ok ()
  else .error "Failed to send password reset email"

end EmailService

namespace AuthService

/-- AuthService.requestPasswordReset: silently succeed for unknown emails;
otherwise create the reset row (1 hour expiry) and dispatch the mail, whose
failure propagates to the caller. -/
def requestPasswordReset (cache : Cache) (db : DB) (email : String)
    (env : MailerEnv) (freshResetId freshResetToken : String) (now : Millis) :
    OpResult :=
  match dbFindUserByEmail db email with
  | none =>
    { result := .ok (), cache := cache, db := db }
  | some user =>
    let expiresAt := now + 60 * 60 * 1000
    let db := dbCreateReset db
      { id := freshResetId, userId := user.id, token := freshResetToken,
        expiresAt := expiresAt }
    match EmailService.sendPasswordResetEmail env with
    | .error e =>
      { result := .error (.internal e), cache := cache, db := db }
    | .ok () =>
      { result := .ok (), cache := cache, db := db }

/-- Result of AuthService.register. -/
structure RegisterResult where
  result : Except AuthError (UserRow × AuthTokens)
  cache : Cache
  db : DB
  deriving Repr

/-- AuthService.register: reject an existing email with Conflict, create the
user (role USER, hashed password, emailVerified schema default false), create
the EmailVerification row, dispatch the verification mail (whose failure
sendVerificationEmail swallows, so the env cannot fail this path), then mint
a fresh session and tokens, write the family head and insert the session. -/
def register (cfg : JwtConfig) (cache : Cache) (db : DB)
    (email password firstName lastName : String) (userName : Option String)
    (ip userAgent : Option String) (_env : MailerEnv)
    (freshUserId freshVerificationId freshVerificationToken
      freshSessionId freshFamilyId : String) (now : Millis) : RegisterResult :=
  match dbFindUserByEmail db email with
  | some _ =>
    { result := .error (.conflict "Email already registered"), cache := cache, db := db }
  | none =>
    let user : UserRow :=
      { id := freshUserId, email := email,
        passwordHash := some (bcryptHash password),
        firstName := firstName, lastName := lastName, userName := userName,
        role := "USER" }
    let db := dbCreateUser db user
    let db := dbCreateEmailVerification db
      { id := freshVerificationId, userId := freshUserId,
        token := freshVerificationToken, createdAt := now }
    let tokens := generateTokens cfg user freshSessionId none freshFamilyId
    let cache := match tokens.familyId with
      | some fid => cacheSet cache (.tokenFamily fid)
          (.family { currentToken := tokens.refreshToken, userId := user.id })
          (7 * 24 * 60 * 60)
      | none => cache
    let cd := createSession cache db user.id tokens.refreshToken
      ip userAgent freshSessionId "password" now
    { result := .ok (user, tokens), cache := cd.1, db := cd.2 }

end AuthService

/-! ## User service (cache-aside variant) -/

namespace UserService

/-- Result of UserService.getUserById. -/
structure GetUserResult where
  result : Except AuthError UserRow
  cache : Cache
  deriving Repr

/-- UserService.getUserById: read-through cache at the user:id key with a
1 hour TTL on fill. -/
def getUserById (cache : Cache) (db : DB) (userId : String) : GetUserResult :=
  match getCachedUser cache userId with
  | some cachedUser =>
    { result := .ok cachedUser, cache := cache }
  | none =>
    match dbFindUserById db userId with
    | none =>
      { result := .error (.notFound "User not found"), cache := cache }
    | some user =>
      { result := .ok user, cache := cacheSet cache (.userCache userId) (.userVal user) 3600 }

/-- Profile update payload (the fields the model tracks). -/
structure UpdateProfileDto where
  name : Option String := none
  bio : Option String := none
  deriving Repr, DecidableEq

/-- Result of UserService.updateProfile. -/
structure ProfileResult where
  result : Except AuthError UserProfileRow
  cache : Cache
  db : DB
  deriving Repr

/-- UserService.updateProfile: look the user up, write the name column when
a name is given, then create or update the profile row.  No cache operation
is performed anywhere on this path. -/
def updateProfile (cache : Cache) (db : DB) (userId : String)
    (data : UpdateProfileDto) : ProfileResult :=
  match dbFindUserById db userId with
  | none =>
    { result := .error (.notFound "User not found"), cache := cache, db := db }
  | some _user =>
    let db := match data.name with
      | some n => dbUpdateUserName db userId n
      | none => db
    match dbFindProfileByUserId db userId with
    | none =>
      let row : UserProfileRow := { userId := userId, bio := data.bio }
      { result := .ok row, cache := cache
        db := { db with profiles := db.profiles ++ [row] } }
    | some _ =>
      let row : UserProfileRow := { userId := userId, bio := data.bio }
      { result := .ok row, cache := cache
        db := { db with profiles := db.profiles.map (fun p =>
          if p.userId == userId then { p with bio := data.bio } else p) } }

/-- Result of UserService.deleteAccount. -/
structure DeleteResult where
  result : Except AuthError Unit
  cache : Cache
  db : DB
  deriving Repr

/-- UserService.deleteAccount: delete the profile when present, then the user
row.  No cache operation is performed (foreign-key cascades of the schema
are outside the modelled services). -/
def deleteAccount (cache : Cache) (db : DB) (userId : String) : DeleteResult :=
  match dbFindUserById db userId with
  | none =>
    { result := .error (.notFound "User not found"), cache := cache, db := db }
  | some _user =>
    let db := if (dbFindProfileByUserId db userId).isSome
      then dbDeleteProfile db userId else db
    let db := dbDeleteUser db userId
    { result := .ok (), cache := cache, db := db }

end UserService

/-! ## OAuth service (state-binding variant) -/

/-- Profile returned by a provider strategy on authenticate(code). -/
structure OAuthUser where
  providerId : String
  email : String
  name : String
  deriving Repr, DecidableEq

/-- The registered strategies map holds exactly google and github. -/
def supportedProvider (provider : String) : Bool :=
  asciiLower provider == "google" || asciiLower provider == "github"

namespace OAuthService

/-- OAuthService.generateTokens: the payload carries only userId, email and
role; no familyId and no sessionId claim is set. -/
def generateTokens (cfg : JwtConfig) (user : UserRow) : AuthTokens :=
  let payload : TokenPayload :=
    { userId := user.id, email := user.email, role := user.role }
  { accessToken := TokenUtil.generateAccessToken cfg payload
    refreshToken := TokenUtil.generateRefreshToken cfg payload
    familyId := none }

/-- OAuthService.createSession: insert the Session row (the id is the
database-generated uuid) and best-effort session_meta write with the
provider name as loginMethod. -/
def createSession (cache : Cache) (db : DB) (userId : String)
    (refreshToken : SignedToken) (ip userAgent : Option String)
    (loginMethod : String) (freshSessionRowId : String) (now : Millis) :
    Cache × DB :=
  let db := dbCreateSession db
    { id := freshSessionRowId, userId := userId, token := refreshToken,
      expiresAt := now + 7 * 24 * 60 * 60 * 1000 }
  let cache :=
    if ip.isSome || userAgent.isSome then
      cacheSet cache (.sessionMeta freshSessionRowId)
        (.meta { ip := ip, userAgent := userAgent, lastUsedAt := now,
                 lastLoginAt := now, loginMethod := loginMethod })
        (7 * 24 * 60 * 60)
    else cache
  (cache, db)

/-- Result of OAuthService.handleCallback: user, tokens, isNewUser. -/
structure CallbackResult where
  result : Except AuthError (UserRow × AuthTokens × Bool)
  cache : Cache
  db : DB
  deriving Repr

/-- Message thrown when linking is attempted on an unverified account. -/
def verifyBeforeLinkMessage : String :=
  "Please verify your email address before linking OAuth accounts. Check your inbox for the verification link."

/-- Tail of handleCallback shared by all success paths: mint tokens and
create the session. -/
def finishCallback (cfg : JwtConfig) (cache : Cache) (db : DB)
    (user : UserRow) (isNewUser : Bool) (provider : String)
    (ip userAgent : Option String) (freshSessionRowId : String)
    (now : Millis) : CallbackResult :=
  let tokens := generateTokens cfg user
  let cd := createSession cache db user.id tokens.refreshToken
    ip userAgent provider freshSessionRowId now
  { result := .ok (user, tokens, isNewUser), cache := cd.1, db := cd.2 }

/-- User row created for a first-time OAuth login: the name is split into
first and last (a single-token name is duplicated into the last name), the
password is null, and emailVerified is not set by the create call, so the
schema default false applies. -/
def newOAuthUser (oauthUser : OAuthUser) (freshUserId : String) : UserRow :=
  let nameParts := splitOnSpace oauthUser.name
  let firstName := match nameParts with
    | [] => "User"
    | h :: _ => if h == "" then "User" else h
  let lastName0 := joinSpace (nameParts.drop 1)
  let lastName := if lastName0 == "" then firstName else lastName0
  { id := freshUserId, email := oauthUser.email, passwordHash := none,
    firstName := firstName, lastName := lastName, role := "USER",
    emailVerified := false }

/-- Body of handleCallback after the state nonce has been validated and
deleted: strategy lookup, code exchange with the provider, then find-or-create
of the local user under the verified-email linking rule. -/
def exchangeAndLogin (cfg : JwtConfig)
    (authenticate : String → String → Except AuthError OAuthUser)
    (cache : Cache) (db : DB) (provider code : String)
    (ip userAgent : Option String) (now : Millis)
    (freshUserId freshOAuthId freshSessionRowId : String) : CallbackResult :=
  if !(supportedProvider provider) then
    { result := .error (.internal ("OAuth provider " ++ provider ++ " not supported"))
      cache := cache, db := db }
  else
    match authenticate provider code with
    | .error e =>
      { result := .error e, cache := cache, db := db }
    | .ok oauthUser =>
      match dbFindUserByEmail db oauthUser.email with
      | some user =>
        let accounts := dbFindOAuthByUserId db user.id
        let isLinked := accounts.any (fun a => a.provider == asciiUpper provider)
        if !isLinked then
          if !user.emailVerified then
            { result := .error (.badRequest verifyBeforeLinkMessage)
              cache := cache, db := db }
          else
            let db := dbCreateOAuthAccount db
              { id := freshOAuthId, userId := user.id,
                provider := asciiUpper provider, providerId := oauthUser.providerId }
            finishCallback cfg cache db user false provider ip userAgent
              freshSessionRowId now
        else
          finishCallback cfg cache db user false provider ip userAgent
            freshSessionRowId now
      | none =>
        let user := newOAuthUser oauthUser freshUserId
        let db := dbCreateUser db user
        let db := dbCreateOAuthAccount db
          { id := freshOAuthId, userId := user.id,
            provider := asciiUpper provider, providerId := oauthUser.providerId }
        finishCallback cfg cache db user true provider ip userAgent
          freshSessionRowId now

/-- OAuthService.handleCallback.  The provider strategy exchange is the
authenticate argument.  The state nonce is validated against the cache,
checked for provider binding, then deleted (single use), after which the
exchange and local login run on the updated cache.  A user found by the
provider email is linked only when emailVerified holds; an absent user is
created with a null password hash and the schema default
emailVerified = false (the create call does not set the column). -/
def handleCallback (cfg : JwtConfig)
    (authenticate : String → String → Except AuthError OAuthUser)
    (cache : Cache) (db : DB) (provider code state : String)
    (ip userAgent : Option String) (now : Millis)
    (freshUserId freshOAuthId freshSessionRowId : String) : CallbackResult :=
  match getOAuthState cache state with
  | none =>
    { result := .error (.unauthorized "Invalid or expired OAuth state parameter")
      cache := cache, db := db }
  | some stateData =>
    if stateData.provider != provider then
      { result := .error (.unauthorized "OAuth state provider mismatch")
        cache := cache, db := db }
    else
      exchangeAndLogin cfg authenticate (cacheDel cache (.oauthState state)) db
        provider code ip userAgent now freshUserId freshOAuthId freshSessionRowId

end OAuthService

/-! ## Lemmas about the store models -/

/-- Deleting a key removes it: a lookup of the deleted key misses. -/
theorem cacheGet_del_self (c : Cache) (k : CacheKey) : cacheGet (cacheDel c k) k = none := by
  have hfind : (cacheDel c k).find? (fun e => e.key == k) = none := by
    rw [List.find?_eq_none]
    intro e he
    have h2 := (List.mem_filter.mp he).2
    simp only [bne_iff_ne] at h2
    simpa [beq_iff_eq] using h2
  unfold cacheGet
  rw [hfind]
  rfl

/-- The find? operation commutes with a filter that keeps every element the
find predicate can accept. -/
theorem find?_filter_of_imp {α : Type} (l : List α) (p q : α → Bool)
    (h : ∀ x, p x = true → q x = true) :
    (l.filter q).find? p = l.find? p := by
  induction l with
  | nil => rfl
  | cons a t ih =>
    by_cases hp : p a = true
    · have hq := h a hp
      simp [List.filter_cons, hq, List.find?_cons, hp, ih]
    · by_cases hq : q a = true
      · simp [List.filter_cons, hq, List.find?_cons, hp, ih]
      · simp [List.filter_cons, hq, List.find?_cons, hp, ih]

/-- Dropping the entries of one key does not change find? at another key. -/
theorem find?_filter_key_ne (c : Cache) (k k2 : CacheKey) (h : k2 ≠ k) :
    (c.filter (fun e => e.key != k)).find? (fun e => e.key == k2) =
      c.find? (fun e => e.key == k2) :=
  find?_filter_of_imp c _ _ (fun e he => by
    have he2 : e.key = k2 := by simpa [beq_iff_eq] using he
    simp [bne_iff_ne, he2, h])

/-- Deleting one key leaves lookups of any other key unchanged. -/
theorem cacheGet_del_other (c : Cache) (k k2 : CacheKey) (h : k2 ≠ k) :
    cacheGet (cacheDel c k) k2 = cacheGet c k2 := by
  unfold cacheGet cacheDel
  rw [find?_filter_key_ne c k k2 h]

/-- Writing one key leaves lookups of any other key unchanged. -/
theorem cacheGet_set_other (c : Cache) (k k2 : CacheKey) (v : CacheValue) (ttl : Nat)
    (h : k2 ≠ k) : cacheGet (cacheSet c k v ttl) k2 = cacheGet c k2 := by
  unfold cacheGet cacheSet
  rw [List.find?_cons_of_neg, find?_filter_key_ne c k k2 h]
  simp only [beq_iff_eq]
  exact fun hh => h hh.symm

/-- Nothing with a given user id survives a filter that drops that user id. -/
theorem sessions_filter_self_eq_nil (l : List SessionRow) (u : String) :
    ((l.filter (fun s => s.userId != u)).filter (fun s => s.userId == u)) = [] := by
  rw [List.filter_eq_nil_iff]
  intro s hs
  have h2 := (List.mem_filter.mp hs).2
  simp only [bne_iff_ne] at h2
  simpa [beq_iff_eq] using h2

/-! ## Background sweeper (sessionCleanup.job.ts) -/

namespace SessionCleanupJob

/-- One firing of the hourly cron callback: it calls
sessionRepository.deleteExpired() and nothing else on the durable store. -/
def run (db : DB) (now : Millis) : DB :=
  dbDeleteExpiredSessions db now

end SessionCleanupJob

/-! ## Concrete fixtures used by witnesses and counterexamples -/

/-- A configuration with two distinct signing secrets. -/
def sampleCfg : JwtConfig :=
  { secret := "access-secret", refreshSecret := "refresh-secret" }

/-- A registered user with a known password. -/
def sampleUser : UserRow :=
  { id := "u1", email := "test@example.com",
    passwordHash := some (bcryptHash "Password123!"),
    firstName := "Test", lastName := "User" }

/-- The empty durable store. -/
def emptyDB : DB :=
  { users := [], sessions := [], passwordResets := [], emailVerifications := [],
    oauthAccounts := [], profiles := [] }

/-- A durable store holding exactly the sample user. -/
def oneUserDB : DB := { emptyDB with users := [sampleUser] }

/-- A fixed claims payload. -/
def samplePayload : TokenPayload :=
  { userId := "u1", email := "test@example.com", role := "USER",
    familyId := some "f1", sessionId := some "s1" }

/-- A provider exchange that always returns the same profile. -/
def sampleExchange : String → String → Except AuthError OAuthUser :=
  fun p _ => .ok { providerId := "pid-" ++ p, email := "oauth@example.com", name := "Jane Doe" }

/-- A cache holding one google OAuth state nonce. -/
def oauthStateCache : Cache :=
  [⟨.oauthState "n1", .oauthSt { provider := "google", timestamp := 0 }, 600⟩]

/-- A valid reset row for the sample user. -/
def validReset : PasswordResetRow :=
  { id := "pr1", userId := "u1", token := "reset-tok", expiresAt := 5000 }

/-- A session row of the sample user. -/
def liveSession : SessionRow :=
  { id := "s1", userId := "u1",
    token := TokenUtil.generateRefreshToken sampleCfg samplePayload,
    expiresAt := 900000 }

/-- A durable store with the sample user, a valid reset row and a live
session. -/
def resetScenarioDB : DB :=
  { emptyDB with
      users := [sampleUser]
      passwordResets := [validReset]
      sessions := [liveSession] }

/-- The refresh token currently at the head of family f1. -/
def headRefreshToken : SignedToken :=
  TokenUtil.generateRefreshToken sampleCfg
    { userId := "u1", email := "test@example.com", role := "USER",
      familyId := some "f1", sessionId := some "s1" }

/-- An older, rotated-out refresh token of the same family. -/
def staleRefreshToken : SignedToken :=
  TokenUtil.generateRefreshToken sampleCfg
    { userId := "u1", email := "test@example.com", role := "USER",
      familyId := some "f1", sessionId := some "s0" }

/-- A cache whose family head for f1 points at the newer token. -/
def familyHeadCache : Cache :=
  [⟨.tokenFamily "f1", .family { currentToken := headRefreshToken, userId := "u1" }, 604800⟩]

/-! ## Claims -/

/-- C5: for every claims payload c, verifying an access token issued from c
with the access verifier returns c, and verifying a refresh token issued
from c with the refresh verifier returns c; verifying an access token with
the refresh verifier, or a refresh token with the access verifier, fails,
under the precondition that the two configured secrets differ. -/
theorem c5_token_round_trip (cfg : JwtConfig) (c : TokenPayload)
    (hsec : cfg.secret ≠ cfg.refreshSecret) :
    TokenUtil.verifyAccessToken cfg (TokenUtil.generateAccessToken cfg c) = .ok c ∧
    TokenUtil.verifyRefreshToken cfg (TokenUtil.generateRefreshToken cfg c) = .ok c ∧
    TokenUtil.verifyRefreshToken cfg (TokenUtil.generateAccessToken cfg c)
      = .error "invalid token" ∧
    TokenUtil.verifyAccessToken cfg (TokenUtil.generateRefreshToken cfg c)
      = .error "invalid token" := by
  refine ⟨?_, ?_, ?_, ?_⟩ <;>
    simp [TokenUtil.verifyAccessToken, TokenUtil.verifyRefreshToken,
      TokenUtil.generateAccessToken, TokenUtil.generateRefreshToken,
      jwtSign, jwtVerify, hsec, Ne.symm hsec]

/-- Witness for C5 at a concrete configuration and payload. -/
theorem c5_token_round_trip_witness :
    sampleCfg.secret ≠ sampleCfg.refreshSecret ∧
    TokenUtil.verifyAccessToken sampleCfg
      (TokenUtil.generateAccessToken sampleCfg samplePayload) = .ok samplePayload ∧
    TokenUtil.verifyRefreshToken sampleCfg
      (TokenUtil.generateAccessToken sampleCfg samplePayload) = .error "invalid token" :=
  ⟨by decide,
   (c5_token_round_trip sampleCfg samplePayload (by decide)).1,
   (c5_token_round_trip sampleCfg samplePayload (by decide)).2.2.1⟩

/-- Helper: a successful loginAfterLockoutCheck returns the found user and
the tokens minted by AuthService.generateTokens for it. -/
theorem loginAfterLockoutCheck_ok (cfg : JwtConfig) (cache : Cache) (db : DB)
    (email password : String) (ip ua : Option String) (now : Millis)
    (sid ffid : String) (ls : Option LockoutState) (u : UserRow) (t : AuthTokens)
    (h : (AuthService.loginAfterLockoutCheck cfg cache db email password ip ua now
      sid ffid ls).result = .ok (u, t)) :
    dbFindUserByEmail db email = some u ∧
    t = AuthService.generateTokens cfg u sid none ffid := by
  unfold AuthService.loginAfterLockoutCheck at h
  cases hu : dbFindUserByEmail db email with
  | none => simp only [hu] at h; simp at h
  | some user =>
    simp only [hu] at h
    cases hp : user.passwordHash with
    | none => simp only [hp] at h; simp at h
    | some ph =>
      simp only [hp] at h
      cases hc : bcryptCompare password ph with
      | false => simp [hc] at h
      | true =>
        simp only [hc, Bool.not_true, Bool.false_eq_true, if_false, Except.ok.injEq,
          Prod.mk.injEq] at h
        obtain ⟨h1, h2⟩ := h
        subst h1
        exact ⟨rfl, h2.symm⟩

/-- C6 counterexample: a successful OAuth callback issues tokens whose
payloads carry neither a familyId nor a sessionId claim, so not every
issued token carries all five claims. -/
theorem c6_counterexample :
    ((OAuthService.handleCallback sampleCfg sampleExchange oauthStateCache emptyDB
        "google" "code" "n1" none none 1000 "u-new" "oa1" "s1").result.map
      (fun r => (r.2.1.accessToken.payload.familyId, r.2.1.accessToken.payload.sessionId,
                 r.2.1.refreshToken.payload.familyId, r.2.1.refreshToken.payload.sessionId)))
      = .ok (none, none, none, none) := by decide

/-- Helper: a successful login returns the tokens minted by
AuthService.generateTokens for the found user with the fresh familyId. -/
theorem login_ok_tokens (cfg : JwtConfig) (cache : Cache) (db : DB)
    (email password : String) (ip ua : Option String) (now : Millis)
    (sid ffid : String) (u : UserRow) (t : AuthTokens)
    (h : (AuthService.login cfg cache db email password ip ua now sid ffid).result
      = .ok (u, t)) :
    t = AuthService.generateTokens cfg u sid none ffid := by
  unfold AuthService.login at h
  cases hl : getLockout cache email with
  | none =>
    simp only [hl] at h
    exact (loginAfterLockoutCheck_ok cfg cache db email password ip ua now
      sid ffid none u t h).2
  | some s =>
    simp only [hl] at h
    cases hlu : s.lockedUntil with
    | none =>
      simp only [hlu] at h
      exact (loginAfterLockoutCheck_ok cfg cache db email password ip ua now
        sid ffid (some s) u t h).2
    | some lu =>
      simp only [hlu] at h
      by_cases hn : now < lu
      · rw [if_pos hn] at h; simp at h
      · rw [if_neg hn] at h
        exact (loginAfterLockoutCheck_ok cfg cache db email password ip ua now
          sid ffid (some s) u t h).2

/-- Helper: a successful register returns the tokens minted by
AuthService.generateTokens for the created user with the fresh familyId. -/
theorem register_ok_tokens (cfg : JwtConfig) (cache : Cache) (db : DB)
    (email password firstName lastName : String) (userName : Option String)
    (ip ua : Option String) (env : MailerEnv)
    (uid vid vtok sid ffid : String) (now : Millis) (u : UserRow) (t : AuthTokens)
    (h : (AuthService.register cfg cache db email password firstName lastName userName
      ip ua env uid vid vtok sid ffid now).result = .ok (u, t)) :
    t = AuthService.generateTokens cfg u sid none ffid := by
  unfold AuthService.register at h
  cases he : dbFindUserByEmail db email with
  | some user => simp only [he] at h; simp at h
  | none =>
    simp only [he, Except.ok.injEq, Prod.mk.injEq] at h
    obtain ⟨h1, h2⟩ := h
    rw [← h1, ← h2]

/-- Helper: a successful rotation step loads the user named by the claims and
returns the tokens minted for it, reusing the familyId of the claims. -/
theorem refreshAfterReuseCheck_ok (cfg : JwtConfig) (cache : Cache) (db : DB)
    (tok : SignedToken) (payload : TokenPayload) (ip ua : Option String)
    (now : Millis) (sid ffid : String) (t : AuthTokens)
    (h : (AuthService.refreshAfterReuseCheck cfg cache db tok payload ip ua now
      sid ffid).result = .ok t) :
    ∃ user, dbFindUserById db payload.userId = some user ∧
      t = AuthService.generateTokens cfg user sid payload.familyId ffid := by
  unfold AuthService.refreshAfterReuseCheck at h
  cases hs : dbFindSessionByToken db tok with
  | none => simp only [hs] at h; simp at h
  | some session =>
    simp only [hs] at h
    by_cases hexp : session.expiresAt < now
    · simp [hexp] at h
    · simp only [if_neg hexp] at h
      cases hu : dbFindUserById db payload.userId with
      | none => simp only [hu] at h; simp at h
      | some user =>
        simp only [hu] at h
        exact ⟨user, rfl, ((Except.ok.injEq _ _).mp h).symm⟩

/-- Helper: a successful refreshToken went through the rotation step, so it
returns the tokens minted for the user named by the verified claims. -/
theorem refreshToken_ok_tokens (cfg : JwtConfig) (cache : Cache) (db : DB)
    (tok : SignedToken) (ip ua : Option String) (now : Millis) (sid ffid : String)
    (t : AuthTokens) (payload0 : TokenPayload)
    (hv : TokenUtil.verifyRefreshToken cfg tok = .ok payload0)
    (h : (AuthService.refreshToken cfg cache db tok ip ua now sid ffid).result
      = .ok t) :
    ∃ user, dbFindUserById db payload0.userId = some user ∧
      t = AuthService.generateTokens cfg user sid payload0.familyId ffid := by
  unfold AuthService.refreshToken at h
  simp only [hv] at h
  have hR : (AuthService.refreshAfterReuseCheck cfg cache db tok payload0 ip ua now
      sid ffid).result = .ok t := by
    cases hf : payload0.familyId with
    | none => simpa only [hf] using h
    | some fid =>
      cases hg : getFamily cache fid with
      | none => simpa only [hf, hg] using h
      | some fs =>
        cases hne : (fs.currentToken != tok) with
        | true => simp only [hf, hg, hne, if_true] at h; simp at h
        | false => simpa only [hf, hg, hne, Bool.false_eq_true, if_false] using h
  exact refreshAfterReuseCheck_ok cfg cache db tok payload0 ip ua now sid ffid t hR

/-- C6 amended: every token pair minted by AuthService.generateTokens (the
single issuance point of the register, login and refresh paths) carries
userId, email, role, familyId and sessionId in both payloads; each of
register, login and refresh returns exactly such a pair on success; tokens
issued by the OAuth callback carry only userId, email and role, with no
familyId and no sessionId claim. -/
theorem c6_issued_token_claims (cfg : JwtConfig) :
    (∀ (user : UserRow) (sid : String) (efid : Option String) (ffid : String),
      (AuthService.generateTokens cfg user sid efid ffid).accessToken.payload =
        { userId := user.id, email := user.email, role := user.role,
          familyId := some (efid.getD ffid), sessionId := some sid } ∧
      (AuthService.generateTokens cfg user sid efid ffid).refreshToken.payload =
        { userId := user.id, email := user.email, role := user.role,
          familyId := some (efid.getD ffid), sessionId := some sid }) ∧
    (∀ (cache : Cache) (db : DB) (email password firstName lastName : String)
      (userName : Option String) (ip ua : Option String) (env : MailerEnv)
      (uid vid vtok sid ffid : String) (now : Millis) (u : UserRow) (t : AuthTokens),
      (AuthService.register cfg cache db email password firstName lastName userName
        ip ua env uid vid vtok sid ffid now).result = .ok (u, t) →
      t.accessToken.payload =
        { userId := u.id, email := u.email, role := u.role,
          familyId := some ffid, sessionId := some sid } ∧
      t.refreshToken.payload =
        { userId := u.id, email := u.email, role := u.role,
          familyId := some ffid, sessionId := some sid }) ∧
    (∀ (cache : Cache) (db : DB) (email password : String) (ip ua : Option String)
      (now : Millis) (sid ffid : String) (u : UserRow) (t : AuthTokens),
      (AuthService.login cfg cache db email password ip ua now sid ffid).result
        = .ok (u, t) →
      t.accessToken.payload =
        { userId := u.id, email := u.email, role := u.role,
          familyId := some ffid, sessionId := some sid } ∧
      t.refreshToken.payload =
        { userId := u.id, email := u.email, role := u.role,
          familyId := some ffid, sessionId := some sid }) ∧
    (∀ (cache : Cache) (db : DB) (tok : SignedToken) (ip ua : Option String)
      (now : Millis) (sid ffid : String) (t : AuthTokens)
      (payload0 : TokenPayload) (user : UserRow),
      TokenUtil.verifyRefreshToken cfg tok = .ok payload0 →
      dbFindUserById db payload0.userId = some user →
      (AuthService.refreshToken cfg cache db tok ip ua now sid ffid).result = .ok t →
      t.accessToken.payload =
        { userId := user.id, email := user.email, role := user.role,
          familyId := some (payload0.familyId.getD ffid), sessionId := some sid } ∧
      t.refreshToken.payload = t.accessToken.payload) ∧
    (∀ user2 : UserRow,
      (OAuthService.generateTokens cfg user2).accessToken.payload =
        { userId := user2.id, email := user2.email, role := user2.role,
          familyId := none, sessionId := none } ∧
      (OAuthService.generateTokens cfg user2).refreshToken.payload =
        { userId := user2.id, email := user2.email, role := user2.role,
          familyId := none, sessionId := none }) := by
  refine ⟨fun user sid efid ffid => ⟨rfl, rfl⟩, ?_, ?_, ?_, fun user2 => ⟨rfl, rfl⟩⟩
  · intro cache db email password firstName lastName userName ip ua env uid vid vtok
      sid ffid now u t h
    rw [register_ok_tokens cfg cache db email password firstName lastName userName
      ip ua env uid vid vtok sid ffid now u t h]
    exact ⟨rfl, rfl⟩
  · intro cache db email password ip ua now sid ffid u t h
    rw [login_ok_tokens cfg cache db email password ip ua now sid ffid u t h]
    exact ⟨rfl, rfl⟩
  · intro cache db tok ip ua now sid ffid t payload0 user hv hu h
    obtain ⟨user2, hu2, htok⟩ :=
      refreshToken_ok_tokens cfg cache db tok ip ua now sid ffid t payload0 hv h
    rw [hu] at hu2
    injection hu2 with huser
    subst huser
    rw [htok]
    exact ⟨rfl, rfl⟩

/-- The user row created by the concrete register call in the C6 witness. -/
def registeredUser : UserRow :=
  { id := "u2", email := "new@example.com",
    passwordHash := some (bcryptHash "Password123!"),
    firstName := "New", lastName := "User" }

/-- Witness for the C6 amended theorem: a concrete register, a concrete
login and a concrete refresh each issue tokens carrying all five claims,
while the OAuth issuance omits familyId and sessionId. -/
theorem c6_issued_token_claims_witness :
    (AuthService.register sampleCfg [] emptyDB "new@example.com" "Password123!" "New"
        "User" none none none { resetMailOk := true, verificationMailOk := true }
        "u2" "ev1" "verify-tok" "s9" "f9" 1000).result
      = .ok (registeredUser,
             AuthService.generateTokens sampleCfg registeredUser "s9" none "f9") ∧
    (AuthService.generateTokens sampleCfg registeredUser "s9" none "f9").accessToken.payload
      = { userId := "u2", email := "new@example.com", role := "USER",
          familyId := some "f9", sessionId := some "s9" } ∧
    (AuthService.login sampleCfg [] oneUserDB "test@example.com" "Password123!"
        none none 1000 "s1" "f1").result
      = .ok (sampleUser, AuthService.generateTokens sampleCfg sampleUser "s1" none "f1") ∧
    (AuthService.generateTokens sampleCfg sampleUser "s1" none "f1").accessToken.payload
      = { userId := "u1", email := "test@example.com", role := "USER",
          familyId := some "f1", sessionId := some "s1" } ∧
    (AuthService.refreshToken sampleCfg familyHeadCache resetScenarioDB headRefreshToken
        none none 1000 "s2" "f2").result
      = .ok (AuthService.generateTokens sampleCfg sampleUser "s2" (some "f1") "f2") ∧
    (AuthService.generateTokens sampleCfg sampleUser "s2" (some "f1") "f2").accessToken.payload
      = { userId := "u1", email := "test@example.com", role := "USER",
          familyId := some "f1", sessionId := some "s2" } ∧
    (OAuthService.generateTokens sampleCfg sampleUser).accessToken.payload.familyId = none ∧
    (OAuthService.generateTokens sampleCfg sampleUser).accessToken.payload.sessionId = none :=
  ⟨by decide,
   by
    exact ((c6_issued_token_claims sampleCfg).2.1 [] emptyDB "new@example.com"
      "Password123!" "New" "User" none none none
      { resetMailOk := true, verificationMailOk := true }
      "u2" "ev1" "verify-tok" "s9" "f9" 1000 registeredUser
      (AuthService.generateTokens sampleCfg registeredUser "s9" none "f9")
      (by decide)).1,
   by decide,
   by
    exact ((c6_issued_token_claims sampleCfg).2.2.1 [] oneUserDB "test@example.com"
      "Password123!" none none 1000 "s1" "f1" sampleUser
      (AuthService.generateTokens sampleCfg sampleUser "s1" none "f1") (by decide)).1,
   by decide,
   by
    exact ((c6_issued_token_claims sampleCfg).2.2.2.1 familyHeadCache resetScenarioDB
      headRefreshToken none none 1000 "s2" "f2"
      (AuthService.generateTokens sampleCfg sampleUser "s2" (some "f1") "f2")
      samplePayload sampleUser (by decide) (by decide) (by decide)).1,
   by decide, by decide⟩

/-- A mailer environment whose SMTP transport fails. -/
def mailerDown : MailerEnv := { resetMailOk := false, verificationMailOk := false }

/-- C7 counterexample: when the user exists and the mailer fails,
requestPasswordReset does not return success; the rethrown mailer error
propagates to the caller. -/
theorem c7_counterexample :
    (AuthService.requestPasswordReset [] oneUserDB "test@example.com" mailerDown
        "pr1" "reset-tok" 1000).result
      = .error (.internal "Failed to send password reset email") := by decide

/-- C7 amended: requestPasswordReset returns success when no user has the
email, and when the user exists and the mail dispatch succeeds; but when the
user exists and the mailer fails, sendPasswordResetEmail rethrows and the
error propagates to the caller (only the registration verification mail is
swallowed). -/
theorem c7_reset_request_outcomes (cache : Cache) (db : DB) (email : String)
    (env : MailerEnv) (rid rtok : String) (now : Millis) :
    (dbFindUserByEmail db email = none →
      (AuthService.requestPasswordReset cache db email env rid rtok now).result = .ok ()) ∧
    (∀ u, dbFindUserByEmail db email = some u →
      (AuthService.requestPasswordReset cache db email env rid rtok now).result =
        (if env.resetMailOk then .ok ()
         else .error (.internal "Failed to send password reset email"))) ∧
    EmailService.sendVerificationEmail env = .ok () := by
  refine ⟨?_, ?_, rfl⟩
  · intro h
    unfold AuthService.requestPasswordReset
    rw [h]
  · intro u h
    unfold AuthService.requestPasswordReset
    rw [h]
    unfold EmailService.sendPasswordResetEmail
    cases hm : env.resetMailOk with
    | false => simp [hm]
    | true => simp [hm]

/-- Witness for the C7 amended theorem: concrete mailer-down and mailer-up
outcomes. -/
theorem c7_reset_request_outcomes_witness :
    dbFindUserByEmail oneUserDB "test@example.com" = some sampleUser ∧
    (AuthService.requestPasswordReset [] oneUserDB "test@example.com" mailerDown
        "pr1" "reset-tok" 1000).result
      = .error (.internal "Failed to send password reset email") ∧
    dbFindUserByEmail oneUserDB "missing@example.com" = none ∧
    (AuthService.requestPasswordReset [] oneUserDB "missing@example.com" mailerDown
        "pr1" "reset-tok" 1000).result = .ok () :=
  ⟨by decide,
   by
    have h := (c7_reset_request_outcomes [] oneUserDB "test@example.com" mailerDown
      "pr1" "reset-tok" 1000).2.1 sampleUser (by decide)
    simpa using h,
   by decide,
   (c7_reset_request_outcomes [] oneUserDB "missing@example.com" mailerDown
      "pr1" "reset-tok" 1000).1 (by decide)⟩

/-- An expired password-reset row. -/
def expiredReset : PasswordResetRow :=
  { id := "pr1", userId := "u1", token := "rt", expiresAt := 500 }

/-- An expired session row. -/
def expiredSession : SessionRow :=
  { id := "s1", userId := "u1",
    token := TokenUtil.generateRefreshToken sampleCfg samplePayload, expiresAt := 500 }

/-- A durable store holding one expired password-reset row and one expired
session. -/
def expiredRowsDB : DB :=
  { emptyDB with passwordResets := [expiredReset], sessions := [expiredSession] }

/-- C8 counterexample: a sweeper run at a time past a PasswordReset expiry
leaves the expired reset row in place (while the expired session is gone),
so the run does not delete every expired PasswordReset row. -/
theorem c8_counterexample :
    expiredReset.expiresAt < 1000 ∧
    (SessionCleanupJob.run expiredRowsDB 1000).passwordResets = [expiredReset] ∧
    (SessionCleanupJob.run expiredRowsDB 1000).sessions = [] := by decide

/-- C8 amended: each run of the sweeper deletes exactly the Session rows with
expiresAt < now (every surviving session is unexpired) and leaves the
PasswordReset and EmailVerification tables untouched. -/
theorem c8_sweeper_scope (db : DB) (now : Millis) :
    (SessionCleanupJob.run db now).sessions =
      db.sessions.filter (fun s => !(decide (s.expiresAt < now))) ∧
    (∀ s ∈ (SessionCleanupJob.run db now).sessions, ¬ s.expiresAt < now) ∧
    (SessionCleanupJob.run db now).passwordResets = db.passwordResets ∧
    (SessionCleanupJob.run db now).emailVerifications = db.emailVerifications := by
  refine ⟨rfl, ?_, rfl, rfl⟩
  intro s hs
  have h2 := (List.mem_filter.mp hs).2
  simpa using h2

/-- C2: when the lockout record for the email exists with lockedUntil in the
future, login throws Unauthorized with the remaining-minutes message, and the
trace of durable-store operations is empty: neither the user repository nor
any other durable table is consulted, and both stores are left unchanged. -/
theorem c2_locked_login_no_db (cfg : JwtConfig) (cache : Cache) (db : DB)
    (email password : String) (ip ua : Option String) (now : Millis)
    (sid ffid : String) (s : LockoutState) (lockedUntil : Millis)
    (hs : getLockout cache email = some s)
    (hl : s.lockedUntil = some lockedUntil)
    (hnow : now < lockedUntil) :
    (AuthService.login cfg cache db email password ip ua now sid ffid).result =
      .error (.unauthorized (AuthService.lockedRemainingMessage lockedUntil now)) ∧
    (AuthService.login cfg cache db email password ip ua now sid ffid).dbTrace = [] ∧
    (AuthService.login cfg cache db email password ip ua now sid ffid).db = db ∧
    (AuthService.login cfg cache db email password ip ua now sid ffid).cache = cache := by
  unfold AuthService.login
  simp [hs, hl, if_pos hnow]

/-- A cache holding an active lockout record for the sample user. -/
def lockedCache : Cache :=
  [⟨.loginAttempts "test@example.com",
    .lockout { attempts := 5, lockedUntil := some 2000000 }, 1800⟩]

/-- Witness for C2: a concrete locked login fails with the remaining-minutes
message (34 minutes left) without touching the durable store. -/
theorem c2_locked_login_no_db_witness :
    getLockout lockedCache "test@example.com"
      = some { attempts := 5, lockedUntil := some 2000000 } ∧
    (AuthService.login sampleCfg lockedCache oneUserDB "test@example.com"
        "Password123!" none none 1000 "s1" "f1").result =
      .error (.unauthorized
        "Account is locked due to too many failed attempts. Please try again in 34 minutes.") ∧
    (AuthService.login sampleCfg lockedCache oneUserDB "test@example.com"
        "Password123!" none none 1000 "s1" "f1").dbTrace = [] :=
  ⟨by decide,
   by
    have h := (c2_locked_login_no_db sampleCfg lockedCache oneUserDB "test@example.com"
      "Password123!" none none 1000 "s1" "f1"
      { attempts := 5, lockedUntil := some 2000000 } 2000000
      (by decide) (by decide) (by decide)).1
    rw [h]
    have hmsg : AuthService.lockedRemainingMessage 2000000 1000 =
        "Account is locked due to too many failed attempts. Please try again in 34 minutes." := by
      decide
    rw [hmsg],
   (c2_locked_login_no_db sampleCfg lockedCache oneUserDB "test@example.com"
      "Password123!" none none 1000 "s1" "f1"
      { attempts := 5, lockedUntil := some 2000000 } 2000000
      (by decide) (by decide) (by decide)).2.1⟩

/-- The cache after the read-through fill of the sample user. -/
def filledUserCache : Cache := (UserService.getUserById [] oneUserDB "u1").cache

/-- C4 at the failing input: after the cache-aside read has filled user:u1,
a successful changePassword, updateProfile and deleteAccount each leave the
user:u1 entry in the ephemeral store (no invalidation is performed), and a
later read even serves the stale row with the old password hash. -/
theorem c4_user_cache_never_invalidated :
    getCachedUser filledUserCache "u1" = some sampleUser ∧
    (AuthService.changePassword filledUserCache oneUserDB "u1" "Password123!"
        "NewPassword456!").result = .ok () ∧
    getCachedUser (AuthService.changePassword filledUserCache oneUserDB "u1"
        "Password123!" "NewPassword456!").cache "u1" = some sampleUser ∧
    (UserService.updateProfile filledUserCache oneUserDB "u1"
        { name := some "New Name" }).result = .ok { userId := "u1", bio := none } ∧
    getCachedUser (UserService.updateProfile filledUserCache oneUserDB "u1"
        { name := some "New Name" }).cache "u1" = some sampleUser ∧
    (UserService.deleteAccount filledUserCache oneUserDB "u1").result = .ok () ∧
    getCachedUser (UserService.deleteAccount filledUserCache oneUserDB "u1").cache "u1"
      = some sampleUser ∧
    (UserService.getUserById
        (AuthService.changePassword filledUserCache oneUserDB "u1" "Password123!"
          "NewPassword456!").cache
        (AuthService.changePassword filledUserCache oneUserDB "u1" "Password123!"
          "NewPassword456!").db
        "u1").result = .ok sampleUser := by decide

/-- C3: after a successful resetPassword for a reset token belonging to a
user, and likewise after a successful changePassword for a user, the set of
Session rows of that user in the durable store is empty. -/
theorem c3_password_change_clears_sessions (cache : Cache) (db : DB)
    (token newPw : String) (now : Millis) (userId curPw newPw2 : String)
    (r : PasswordResetRow)
    (hr : dbFindResetByToken db token = some r) :
    ((AuthService.resetPassword cache db token newPw now).result = .ok () →
      (AuthService.resetPassword cache db token newPw now).db.sessions.filter
        (fun s => s.userId == r.userId) = []) ∧
    ((AuthService.changePassword cache db userId curPw newPw2).result = .ok () →
      (AuthService.changePassword cache db userId curPw newPw2).db.sessions.filter
        (fun s => s.userId == userId) = []) := by
  constructor
  · intro hok
    unfold AuthService.resetPassword at hok ⊢
    simp only [hr] at hok ⊢
    by_cases h1 : r.usedAt.isSome
    · simp [h1] at hok
    · by_cases h2 : r.expiresAt < now
      · simp [h1, h2] at hok
      · simp only [h1, h2, if_false, if_true, Bool.false_eq_true]
        simp [dbDeleteSessionsByUserId, dbMarkResetUsed, dbUpdateUserPassword,
          sessions_filter_self_eq_nil]
  · intro hok
    unfold AuthService.changePassword at hok ⊢
    cases hu : dbFindUserById db userId with
    | none => simp only [hu] at hok; simp at hok
    | some user =>
      simp only [hu] at hok ⊢
      cases hp : user.passwordHash with
      | none => simp only [hp] at hok; simp at hok
      | some ph =>
        simp only [hp] at hok ⊢
        cases hc : bcryptCompare curPw ph with
        | false => simp [hc] at hok
        | true =>
          simp only [hc, Bool.not_true, Bool.false_eq_true, if_false]
          simp [dbDeleteSessionsByUserId, dbUpdateUserPassword,
            sessions_filter_self_eq_nil]

/-- Witness for C3: a concrete successful resetPassword and changePassword
each leave the user with zero sessions. -/
theorem c3_password_change_clears_sessions_witness :
    dbFindResetByToken resetScenarioDB "reset-tok" = some validReset ∧
    (AuthService.resetPassword [] resetScenarioDB "reset-tok" "NewPassword456!"
        1000).result = .ok () ∧
    (AuthService.resetPassword [] resetScenarioDB "reset-tok" "NewPassword456!"
        1000).db.sessions.filter (fun s => s.userId == "u1") = [] ∧
    (AuthService.changePassword [] resetScenarioDB "u1" "Password123!"
        "NewPassword456!").db.sessions.filter (fun s => s.userId == "u1") = [] :=
  ⟨by decide, by decide,
   (c3_password_change_clears_sessions [] resetScenarioDB "reset-tok" "NewPassword456!"
      1000 "u1" "Password123!" "NewPassword456!" validReset (by decide)).1 (by decide),
   (c3_password_change_clears_sessions [] resetScenarioDB "reset-tok" "NewPassword456!"
      1000 "u1" "Password123!" "NewPassword456!" validReset (by decide)).2 (by decide)⟩

/-- C1: on a refresh call whose verified claims carry a familyId, when the
family head exists in the ephemeral store and its currentToken differs from
the presented token, the call throws Unauthorized (reuse detected) and the
family-head entry is deleted from the ephemeral store. -/
theorem c1_refresh_reuse_detection (cfg : JwtConfig) (cache : Cache) (db : DB)
    (tok : SignedToken) (ip ua : Option String) (now : Millis) (sid ffid : String)
    (payload : TokenPayload) (fid : String) (fs : FamilyState)
    (hv : TokenUtil.verifyRefreshToken cfg tok = .ok payload)
    (hf : payload.familyId = some fid)
    (hfam : getFamily cache fid = some fs)
    (hne : fs.currentToken ≠ tok) :
    (AuthService.refreshToken cfg cache db tok ip ua now sid ffid).result =
      .error (.unauthorized "Invalid refresh token (reuse detected)") ∧
    cacheGet (AuthService.refreshToken cfg cache db tok ip ua now sid ffid).cache
      (.tokenFamily fid) = none ∧
    getFamily (AuthService.refreshToken cfg cache db tok ip ua now sid ffid).cache fid
      = none := by
  have hb : (fs.currentToken != tok) = true := by simpa [bne_iff_ne] using hne
  unfold AuthService.refreshToken
  simp only [hv, hf, hfam, hb, if_true]
  refine ⟨by trivial, cacheGet_del_self cache (.tokenFamily fid), ?_⟩
  unfold getFamily
  rw [cacheGet_del_self cache (.tokenFamily fid)]

/-- Witness for C1: presenting the stale token of the family is rejected as
reuse and deletes the family head. -/
theorem c1_refresh_reuse_detection_witness :
    TokenUtil.verifyRefreshToken sampleCfg staleRefreshToken =
      .ok { userId := "u1", email := "test@example.com", role := "USER",
            familyId := some "f1", sessionId := some "s0" } ∧
    getFamily familyHeadCache "f1"
      = some { currentToken := headRefreshToken, userId := "u1" } ∧
    (AuthService.refreshToken sampleCfg familyHeadCache oneUserDB staleRefreshToken
        none none 1000 "s2" "f2").result =
      .error (.unauthorized "Invalid refresh token (reuse detected)") ∧
    getFamily (AuthService.refreshToken sampleCfg familyHeadCache oneUserDB
        staleRefreshToken none none 1000 "s2" "f2").cache "f1" = none :=
  ⟨by decide, by decide,
   (c1_refresh_reuse_detection sampleCfg familyHeadCache oneUserDB staleRefreshToken
      none none 1000 "s2" "f2"
      { userId := "u1", email := "test@example.com", role := "USER",
        familyId := some "f1", sessionId := some "s0" } "f1"
      { currentToken := headRefreshToken, userId := "u1" }
      (by decide) (by decide) (by decide) (by decide)).1,
   (c1_refresh_reuse_detection sampleCfg familyHeadCache oneUserDB staleRefreshToken
      none none 1000 "s2" "f2"
      { userId := "u1", email := "test@example.com", role := "USER",
        familyId := some "f1", sessionId := some "s0" } "f1"
      { currentToken := headRefreshToken, userId := "u1" }
      (by decide) (by decide) (by decide) (by decide)).2.2⟩

/-- The callback tail returns the user, its OAuth tokens and the isNewUser
flag. -/
theorem finishCallback_result (cfg : JwtConfig) (cache : Cache) (db : DB)
    (user : UserRow) (b : Bool) (p : String) (ip ua : Option String)
    (srid : String) (now : Millis) :
    (OAuthService.finishCallback cfg cache db user b p ip ua srid now).result =
      .ok (user, OAuthService.generateTokens cfg user, b) := rfl

/-- The callback tail inserts exactly one session row into the durable
store. -/
theorem finishCallback_db (cfg : JwtConfig) (cache : Cache) (db : DB)
    (user : UserRow) (b : Bool) (p : String) (ip ua : Option String)
    (srid : String) (now : Millis) :
    (OAuthService.finishCallback cfg cache db user b p ip ua srid now).db =
      dbCreateSession db
        { id := srid, userId := user.id,
          token := (OAuthService.generateTokens cfg user).refreshToken,
          expiresAt := now + 7 * 24 * 60 * 60 * 1000 } := rfl

/-- The callback tail only ever writes a session_meta key, so oauth:state
lookups are unchanged. -/
theorem finishCallback_cache_get (cfg : JwtConfig) (cache : Cache) (db : DB)
    (user : UserRow) (b : Bool) (p : String) (ip ua : Option String)
    (srid : String) (now : Millis) (n : String) :
    cacheGet (OAuthService.finishCallback cfg cache db user b p ip ua srid now).cache
      (.oauthState n) = cacheGet cache (.oauthState n) := by
  unfold OAuthService.finishCallback OAuthService.createSession
  cases hb : (ip.isSome || ua.isSome) with
  | true =>
    simp only [hb, if_true]
    exact cacheGet_set_other _ _ _ _ _ (fun hh => CacheKey.noConfusion hh)
  | false =>
    simp only [hb, Bool.false_eq_true, if_false]

/-- The exchange stage never writes or deletes oauth:state keys. -/
theorem exchangeAndLogin_oauthState_get (cfg : JwtConfig)
    (authenticate : String → String → Except AuthError OAuthUser)
    (cache : Cache) (db : DB) (p c : String) (ip ua : Option String) (now : Millis)
    (uid oid srid : String) (n : String) :
    cacheGet (OAuthService.exchangeAndLogin cfg authenticate cache db p c ip ua now
      uid oid srid).cache (.oauthState n) = cacheGet cache (.oauthState n) := by
  unfold OAuthService.exchangeAndLogin
  cases hsup : supportedProvider p with
  | false => simp [hsup]
  | true =>
    simp only [hsup, Bool.not_true, Bool.false_eq_true, if_false]
    cases hauth : authenticate p c with
    | error e => rfl
    | ok ou =>
      cases hfind : dbFindUserByEmail db ou.email with
      | none => simp [hfind, finishCallback_cache_get]
      | some user =>
        cases hl : (dbFindOAuthByUserId db user.id).any
            (fun a => a.provider == asciiUpper p) with
        | true => simp [hfind, hl, finishCallback_cache_get]
        | false =>
          cases hv : user.emailVerified with
          | false => simp [hfind, hl, hv]
          | true => simp [hfind, hl, hv, finishCallback_cache_get]

/-- A callback finding no state entry fails with the invalid-state message. -/
theorem handleCallback_no_state (cfg : JwtConfig)
    (authenticate : String → String → Except AuthError OAuthUser)
    (cache : Cache) (db : DB) (p c n : String) (ip ua : Option String) (now : Millis)
    (uid oid srid : String)
    (h : getOAuthState cache n = none) :
    (OAuthService.handleCallback cfg authenticate cache db p c n ip ua now
      uid oid srid).result
      = .error (.unauthorized "Invalid or expired OAuth state parameter") := by
  unfold OAuthService.handleCallback
  rw [h]

/-- A callback whose state entry matches the provider reduces to the exchange
stage on the cache with the state entry deleted. -/
theorem handleCallback_eq_exchange (cfg : JwtConfig)
    (authenticate : String → String → Except AuthError OAuthUser)
    (cache : Cache) (db : DB) (p c n : String) (ip ua : Option String) (now : Millis)
    (uid oid srid : String) (sd : OAuthStateData)
    (hst : getOAuthState cache n = some sd) (hm : (sd.provider != p) = false) :
    OAuthService.handleCallback cfg authenticate cache db p c n ip ua now uid oid srid =
      OAuthService.exchangeAndLogin cfg authenticate (cacheDel cache (.oauthState n)) db
        p c ip ua now uid oid srid := by
  unfold OAuthService.handleCallback
  rw [hst]
  simp [hm]

/-- A callback whose state entry names a different provider fails with the
mismatch message. -/
theorem handleCallback_mismatch (cfg : JwtConfig)
    (authenticate : String → String → Except AuthError OAuthUser)
    (cache : Cache) (db : DB) (p c n : String) (ip ua : Option String) (now : Millis)
    (uid oid srid : String) (sd : OAuthStateData)
    (hst : getOAuthState cache n = some sd) (hm : (sd.provider != p) = true) :
    (OAuthService.handleCallback cfg authenticate cache db p c n ip ua now
      uid oid srid).result = .error (.unauthorized "OAuth state provider mismatch") := by
  unfold OAuthService.handleCallback
  rw [hst]
  simp [hm]

/-- C9: a successful callback consuming state nonce n deletes the entry
oauth:state:n from the ephemeral store, and any second callback presenting
the same n on the resulting cache throws Unauthorized with the message
"Invalid or expired OAuth state parameter". -/
theorem c9_oauth_state_single_use (cfg cfg2 : JwtConfig)
    (a1 a2 : String → String → Except AuthError OAuthUser)
    (cache : Cache) (db db2 : DB) (p c n : String) (ip ua : Option String)
    (now : Millis) (uid oid srid : String) (r : UserRow × AuthTokens × Bool)
    (p2 c2 : String) (ip2 ua2 : Option String) (now2 : Millis)
    (uid2 oid2 srid2 : String)
    (h : (OAuthService.handleCallback cfg a1 cache db p c n ip ua now
      uid oid srid).result = .ok r) :
    cacheGet (OAuthService.handleCallback cfg a1 cache db p c n ip ua now
      uid oid srid).cache (.oauthState n) = none ∧
    (OAuthService.handleCallback cfg2 a2
        (OAuthService.handleCallback cfg a1 cache db p c n ip ua now uid oid srid).cache
        db2 p2 c2 n ip2 ua2 now2 uid2 oid2 srid2).result =
      .error (.unauthorized "Invalid or expired OAuth state parameter") := by
  have hdel : cacheGet (OAuthService.handleCallback cfg a1 cache db p c n ip ua now
      uid oid srid).cache (.oauthState n) = none := by
    cases hst : getOAuthState cache n with
    | none =>
      rw [handleCallback_no_state cfg a1 cache db p c n ip ua now uid oid srid hst] at h
      simp at h
    | some sd =>
      cases hm : (sd.provider != p) with
      | true =>
        rw [handleCallback_mismatch cfg a1 cache db p c n ip ua now uid oid srid sd
          hst hm] at h
        simp at h
      | false =>
        rw [handleCallback_eq_exchange cfg a1 cache db p c n ip ua now uid oid srid sd
          hst hm]
        rw [exchangeAndLogin_oauthState_get]
        exact cacheGet_del_self cache (.oauthState n)
  refine ⟨hdel, handleCallback_no_state cfg2 a2 _ db2 p2 c2 n ip2 ua2 now2
    uid2 oid2 srid2 ?_⟩
  unfold getOAuthState
  rw [hdel]

/-- The user row created by the sampleExchange google callback. -/
def oauthNewUser : UserRow :=
  OAuthService.newOAuthUser
    { providerId := "pid-google", email := "oauth@example.com", name := "Jane Doe" }
    "u-new"

/-- Witness for C9: a concrete successful google callback consumes nonce n1;
replaying n1 against the resulting stores fails with the invalid-state
message. -/
theorem c9_oauth_state_single_use_witness :
    (OAuthService.handleCallback sampleCfg sampleExchange oauthStateCache emptyDB
        "google" "code" "n1" none none 1000 "u-new" "oa1" "s1").result
      = .ok (oauthNewUser, OAuthService.generateTokens sampleCfg oauthNewUser, true) ∧
    cacheGet (OAuthService.handleCallback sampleCfg sampleExchange oauthStateCache emptyDB
        "google" "code" "n1" none none 1000 "u-new" "oa1" "s1").cache
      (.oauthState "n1") = none ∧
    (OAuthService.handleCallback sampleCfg sampleExchange
        (OAuthService.handleCallback sampleCfg sampleExchange oauthStateCache emptyDB
          "google" "code" "n1" none none 1000 "u-new" "oa1" "s1").cache
        (OAuthService.handleCallback sampleCfg sampleExchange oauthStateCache emptyDB
          "google" "code" "n1" none none 1000 "u-new" "oa1" "s1").db
        "google" "code2" "n1" none none 2000 "u-new2" "oa2" "s2").result =
      .error (.unauthorized "Invalid or expired OAuth state parameter") :=
  ⟨by decide,
   (c9_oauth_state_single_use sampleCfg sampleCfg sampleExchange sampleExchange
      oauthStateCache emptyDB
      (OAuthService.handleCallback sampleCfg sampleExchange oauthStateCache emptyDB
        "google" "code" "n1" none none 1000 "u-new" "oa1" "s1").db
      "google" "code" "n1" none none 1000 "u-new" "oa1" "s1"
      (oauthNewUser, OAuthService.generateTokens sampleCfg oauthNewUser, true)
      "google" "code2" none none 2000 "u-new2" "oa2" "s2" (by decide)).1,
   (c9_oauth_state_single_use sampleCfg sampleCfg sampleExchange sampleExchange
      oauthStateCache emptyDB
      (OAuthService.handleCallback sampleCfg sampleExchange oauthStateCache emptyDB
        "google" "code" "n1" none none 1000 "u-new" "oa1" "s1").db
      "google" "code" "n1" none none 1000 "u-new" "oa1" "s1"
      (oauthNewUser, OAuthService.generateTokens sampleCfg oauthNewUser, true)
      "google" "code2" none none 2000 "u-new2" "oa2" "s2" (by decide)).2⟩

/-- A successful exchange stage reporting isNewUser can only have taken the
create branch: the exchanged profile had no local account, the returned user
is the newly created row, and the durable store got the user, the link and
one session appended. -/
theorem exchangeAndLogin_ok_new (cfg : JwtConfig)
    (a : String → String → Except AuthError OAuthUser)
    (cache : Cache) (db : DB) (p c : String) (ip ua : Option String) (now : Millis)
    (uid oid srid : String) (r : UserRow × AuthTokens × Bool)
    (h : (OAuthService.exchangeAndLogin cfg a cache db p c ip ua now
      uid oid srid).result = .ok r)
    (hnew : r.2.2 = true) :
    ∃ ou, a p c = .ok ou ∧ dbFindUserByEmail db ou.email = none ∧
      r = (OAuthService.newOAuthUser ou uid,
           OAuthService.generateTokens cfg (OAuthService.newOAuthUser ou uid), true) ∧
      (OAuthService.exchangeAndLogin cfg a cache db p c ip ua now uid oid srid).db =
        dbCreateSession
          (dbCreateOAuthAccount (dbCreateUser db (OAuthService.newOAuthUser ou uid))
            { id := oid, userId := uid, provider := asciiUpper p,
              providerId := ou.providerId })
          { id := srid, userId := uid,
            token := (OAuthService.generateTokens cfg
              (OAuthService.newOAuthUser ou uid)).refreshToken,
            expiresAt := now + 7 * 24 * 60 * 60 * 1000 } := by
  unfold OAuthService.exchangeAndLogin at h ⊢
  cases hsup : supportedProvider p with
  | false => simp [hsup] at h
  | true =>
    simp only [hsup, Bool.not_true, Bool.false_eq_true, if_false] at h ⊢
    cases hauth : a p c with
    | error e => simp only [hauth] at h; simp at h
    | ok ou =>
      simp only [hauth] at h ⊢
      cases hfind : dbFindUserByEmail db ou.email with
      | some user =>
        simp only [hfind] at h
        cases hl : (dbFindOAuthByUserId db user.id).any
            (fun a => a.provider == asciiUpper p) with
        | true =>
          simp only [hl, Bool.not_true, Bool.false_eq_true, if_false] at h
          rw [finishCallback_result] at h
          rw [show r = (user, OAuthService.generateTokens cfg user, false) from
            (Except.ok.injEq _ _).mp h.symm] at hnew
          simp at hnew
        | false =>
          simp only [hl, Bool.not_false, if_true] at h
          cases hv : user.emailVerified with
          | false => simp [hv] at h
          | true =>
            simp only [hv, Bool.not_true, Bool.false_eq_true, if_false] at h
            rw [finishCallback_result] at h
            rw [show r = (user, OAuthService.generateTokens cfg user, false) from
              (Except.ok.injEq _ _).mp h.symm] at hnew
            simp at hnew
      | none =>
        simp only [hfind] at h ⊢
        rw [finishCallback_result] at h
        refine ⟨ou, rfl, hfind, ((Except.ok.injEq _ _).mp h).symm, ?_⟩
        rw [finishCallback_db]
        rfl

/-- When the exchanged email belongs to an existing unverified user with no
link for this provider, the exchange stage fails BadRequest at the
verified-email linking check. -/
theorem exchangeAndLogin_unverified (cfg : JwtConfig)
    (a : String → String → Except AuthError OAuthUser)
    (cache : Cache) (db : DB) (p c : String) (ip ua : Option String) (now : Millis)
    (uid oid srid : String) (u : UserRow) (ou : OAuthUser)
    (hsup : supportedProvider p = true)
    (hauth : a p c = .ok ou)
    (hfind : dbFindUserByEmail db ou.email = some u)
    (hunlinked : (dbFindOAuthByUserId db u.id).any
      (fun x => x.provider == asciiUpper p) = false)
    (hunv : u.emailVerified = false) :
    (OAuthService.exchangeAndLogin cfg a cache db p c ip ua now uid oid srid).result =
      .error (.badRequest OAuthService.verifyBeforeLinkMessage) := by
  unfold OAuthService.exchangeAndLogin
  simp [hsup, hauth, hfind, hunlinked, hunv]

/-- Appending a user with a previously absent email makes findByEmail return
exactly that user. -/
theorem dbFindUserByEmail_create_self (db : DB) (u : UserRow)
    (h : dbFindUserByEmail db u.email = none) :
    dbFindUserByEmail { db with users := db.users ++ [u] } u.email = some u := by
  unfold dbFindUserByEmail at h ⊢
  rw [List.find?_append, h]
  simp [List.find?]

/-- Filtering a fresh user id out of the old accounts plus one new link keeps
exactly the new link. -/
theorem oauthAccounts_filter_fresh (accounts : List OAuthAccountRow)
    (acct : OAuthAccountRow) (uid : String)
    (hfresh : ∀ a ∈ accounts, a.userId ≠ uid) (hacct : acct.userId = uid) :
    (accounts ++ [acct]).filter (fun a => a.userId == uid) = [acct] := by
  rw [List.filter_append]
  have h1 : accounts.filter (fun a => a.userId == uid) = [] := by
    rw [List.filter_eq_nil_iff]
    intro a ha
    simpa [beq_iff_eq] using hfresh a ha
  rw [h1]
  simp [List.filter, hacct]

/-- C10: a user created by the OAuth callback path (no prior account for the
provider email) is created with a null passwordHash and emailVerified false;
consequently a later callback from a different provider for that same user
fails BadRequest at the verified-email linking check. -/
theorem c10_oauth_new_user_blocked_linking (cfg cfg2 : JwtConfig)
    (a1 a2 : String → String → Except AuthError OAuthUser)
    (cache : Cache) (db : DB) (p c1 n1 : String) (ip ua : Option String) (now : Millis)
    (uid oid srid : String) (r : UserRow × AuthTokens × Bool)
    (p2 c2 n2 : String) (t2 : Millis) (ip2 ua2 : Option String) (now2 : Millis)
    (uid2 oid2 srid2 : String) (ou2 : OAuthUser)
    (h1 : (OAuthService.handleCallback cfg a1 cache db p c1 n1 ip ua now
      uid oid srid).result = .ok r)
    (hnew : r.2.2 = true)
    (hfresh : ∀ a ∈ db.oauthAccounts, a.userId ≠ uid)
    (hn2 : getOAuthState (OAuthService.handleCallback cfg a1 cache db p c1 n1 ip ua now
      uid oid srid).cache n2 = some { provider := p2, timestamp := t2 })
    (hsup2 : supportedProvider p2 = true)
    (hauth2 : a2 p2 c2 = .ok ou2)
    (hem2 : ou2.email = r.1.email)
    (hpne : asciiUpper p ≠ asciiUpper p2) :
    r.1.passwordHash = none ∧ r.1.emailVerified = false ∧
    (OAuthService.handleCallback cfg2 a2
        (OAuthService.handleCallback cfg a1 cache db p c1 n1 ip ua now uid oid srid).cache
        (OAuthService.handleCallback cfg a1 cache db p c1 n1 ip ua now uid oid srid).db
        p2 c2 n2 ip2 ua2 now2 uid2 oid2 srid2).result =
      .error (.badRequest OAuthService.verifyBeforeLinkMessage) := by
  cases hst : getOAuthState cache n1 with
  | none =>
    rw [handleCallback_no_state cfg a1 cache db p c1 n1 ip ua now uid oid srid hst] at h1
    simp at h1
  | some sd =>
    cases hm : (sd.provider != p) with
    | true =>
      rw [handleCallback_mismatch cfg a1 cache db p c1 n1 ip ua now uid oid srid sd
        hst hm] at h1
      simp at h1
    | false =>
      have heq := handleCallback_eq_exchange cfg a1 cache db p c1 n1 ip ua now
        uid oid srid sd hst hm
      rw [heq] at h1 hn2 ⊢
      obtain ⟨ou, hauth1, hfind1, hr, hdb⟩ :=
        exchangeAndLogin_ok_new cfg a1 (cacheDel cache (.oauthState n1)) db p c1 ip ua
          now uid oid srid r h1 hnew
      have hr1 : r.1 = OAuthService.newOAuthUser ou uid := by rw [hr]
      refine ⟨by rw [hr1]; rfl, by rw [hr1]; rfl, ?_⟩
      have heq2 := handleCallback_eq_exchange cfg2 a2
        (OAuthService.exchangeAndLogin cfg a1 (cacheDel cache (.oauthState n1)) db p c1
          ip ua now uid oid srid).cache
        (OAuthService.exchangeAndLogin cfg a1 (cacheDel cache (.oauthState n1)) db p c1
          ip ua now uid oid srid).db
        p2 c2 n2 ip2 ua2 now2 uid2 oid2 srid2 { provider := p2, timestamp := t2 }
        hn2 (by simp)
      rw [heq2]
      have hemail : ou2.email = (OAuthService.newOAuthUser ou uid).email := by
        rw [hem2, hr1]
      apply exchangeAndLogin_unverified cfg2 a2 _ _ p2 c2 ip2 ua2 now2 uid2 oid2 srid2
        (OAuthService.newOAuthUser ou uid) ou2 hsup2 hauth2
      · rw [hdb, hemail]
        exact dbFindUserByEmail_create_self db (OAuthService.newOAuthUser ou uid) hfind1
      · rw [hdb]
        unfold dbFindOAuthByUserId
        show ((db.oauthAccounts ++
            [({ id := oid, userId := uid, provider := asciiUpper p,
                providerId := ou.providerId } : OAuthAccountRow)]).filter
            (fun a => a.userId == uid)).any
            (fun x => x.provider == asciiUpper p2) = false
        rw [oauthAccounts_filter_fresh db.oauthAccounts
          ({ id := oid, userId := uid, provider := asciiUpper p,
             providerId := ou.providerId } : OAuthAccountRow) uid hfresh rfl]
        simpa [beq_eq_false_iff_ne] using hpne
      · rfl

/-- A cache holding a google nonce and a github nonce. -/
def twoStateCache : Cache :=
  [⟨.oauthState "n1", .oauthSt { provider := "google", timestamp := 0 }, 600⟩,
   ⟨.oauthState "n2", .oauthSt { provider := "github", timestamp := 0 }, 600⟩]

/-- Witness for C10: a google callback creates an unverified passwordless
user; the github callback for the same email is then rejected BadRequest at
the verified-email linking check. -/
theorem c10_oauth_new_user_blocked_linking_witness :
    (OAuthService.handleCallback sampleCfg sampleExchange twoStateCache emptyDB
        "google" "code" "n1" none none 1000 "u-new" "oa1" "s1").result
      = .ok (oauthNewUser, OAuthService.generateTokens sampleCfg oauthNewUser, true) ∧
    oauthNewUser.passwordHash = none ∧
    oauthNewUser.emailVerified = false ∧
    (OAuthService.handleCallback sampleCfg sampleExchange
        (OAuthService.handleCallback sampleCfg sampleExchange twoStateCache emptyDB
          "google" "code" "n1" none none 1000 "u-new" "oa1" "s1").cache
        (OAuthService.handleCallback sampleCfg sampleExchange twoStateCache emptyDB
          "google" "code" "n1" none none 1000 "u-new" "oa1" "s1").db
        "github" "code2" "n2" none none 2000 "u-new2" "oa2" "s2").result =
      .error (.badRequest OAuthService.verifyBeforeLinkMessage) :=
  ⟨by decide, rfl, rfl,
   (c10_oauth_new_user_blocked_linking sampleCfg sampleCfg sampleExchange sampleExchange
      twoStateCache emptyDB "google" "code" "n1" none none 1000 "u-new" "oa1" "s1"
      (oauthNewUser, OAuthService.generateTokens sampleCfg oauthNewUser, true)
      "github" "code2" "n2" 0 none none 2000 "u-new2" "oa2" "s2"
      { providerId := "pid-github", email := "oauth@example.com", name := "Jane Doe" }
      (by decide) (by decide) (by simp [emptyDB]) (by decide) (by decide) (by decide)
      (by decide) (by decide)).2.2⟩

end CodezestAuth


